import Mathlib

/-!
Verification of the extraction-and-normalization core of the Career-Parser
scraper (scraper.py, greenhouse_strategy.py, paylocity_strategy.py,
adp_strategy.py).

Pure string algorithms (keyword matching, identifier derivation, company-name
sanitization, description cleaning) are translated directly from the Python
source.  Calls into external collaborators (Selenium page sessions,
BeautifulSoup DOM queries, httpx requests) are modelled by explicit outcome
values: a DOM selector becomes an `Option String` field of a page structure
(`none` when the selector finds no element), and an HTTP interaction becomes
an outcome inductive enumerating the exception classes the Python code
catches.  Character-level operations (`lower`, `upper`, `strip`) follow the
ASCII behaviour of the Python originals; percent-escapes in URLs are decoded
bytewise, so multi-byte UTF-8 escape sequences are out of scope.
-/

/-! ## Basic string helpers (Python string primitives) -/

/-- Index of the first occurrence of `needle` as a contiguous sublist of the
remaining list, if any.  Models Python `str.find` for substrings. -/
def findIdxSub (needle : List Char) : List Char → Option Nat
  | [] => if needle.isEmpty then some 0 else none
  | c :: cs =>
    if needle.isPrefixOf (c :: cs) then some 0
    else (findIdxSub needle cs).map (· + 1)

/-- Python `needle in hay` substring containment test. -/
def strContains (hay needle : String) : Bool :=
  (findIdxSub needle.data hay.data).isSome

/-- Python `str.lower` (ASCII). -/
def py_lower (s : String) : String := (s.data.map Char.toLower).asString

/-- Python `str.upper` (ASCII). -/
def py_upper (s : String) : String := (s.data.map Char.toUpper).asString

/-- Python whitespace for `str.strip`. -/
def py_is_space (c : Char) : Bool :=
  c = ' ' || c = '\t' || c = '\n' || c = '\r' || c = '\x0b' || c = '\x0c'

/-- Python `str.strip` on a character list. -/
def py_stripL (cs : List Char) : List Char :=
  ((cs.dropWhile py_is_space).reverse.dropWhile py_is_space).reverse

/-- Python `str.strip`. -/
def py_strip (s : String) : String := (py_stripL s.data).asString

/-- Split a list at the first occurrence of `c`: the part before and the part
after.  Models Python `str.split(c, 1)` / `str.find` based splitting. -/
def splitOnce (cs : List Char) (c : Char) : Option (List Char × List Char) :=
  match cs with
  | [] => none
  | x :: xs =>
    if x = c then some ([], xs)
    else (splitOnce xs c).map (fun p => (x :: p.1, p.2))

/-- Split a list on every occurrence of `c` (Python `str.split(c)`). -/
def splitChar (c : Char) : List Char → List (List Char)
  | [] => [[]]
  | x :: xs =>
    if x = c then [] :: splitChar c xs
    else
      match splitChar c xs with
      | [] => [[x]]
      | g :: gs => (x :: g) :: gs

/-! ## urllib.parse: urlparse and parse_qs

`format_job_card` only consumes `parsed_url.path` and
`parse_qs(parsed_url.query)`, so the embedding computes those two components,
following CPython `urlsplit`/`urlparse`: sanitize the input, strip the scheme,
strip the `//netloc` part, cut the fragment, split off the query, and split
`;params` off the last path segment. -/

/-- CPython urlsplit strips leading (only) C0-control-or-space characters and
then removes tab, CR and LF anywhere in the URL.  The `ValueError` urlsplit
raises on malformed bracketed (IPv6) netlocs — which would make
`format_job_card` skip every derivation rule — is outside the modelled
scope; links with bracketed hosts are not considered. -/
def url_sanitize (cs : List Char) : List Char :=
  (cs.dropWhile (fun c => c.toNat ≤ 32)).filter
    (fun c => !(c = '\t' || c = '\r' || c = '\n'))

/-- Characters allowed in a URL scheme after the leading letter. -/
def isSchemeChar (c : Char) : Bool :=
  c.isAlphanum || c = '+' || c = '-' || c = '.'

/-- Drop a leading `scheme:` when the text before the first colon is a valid
scheme (nonempty, starts with a letter, scheme characters only). -/
def url_drop_scheme (cs : List Char) : List Char :=
  match splitOnce cs ':' with
  | none => cs
  | some (before, after) =>
    match before with
    | [] => cs
    | b :: _ => if b.isAlpha && before.all isSchemeChar then after else cs

/-- Drop a leading `//netloc`; the netloc extends to the next `/`, `?` or
`#`, which stays in the remainder. -/
def url_drop_netloc (cs : List Char) : List Char :=
  match cs with
  | '/' :: '/' :: rest =>
    rest.dropWhile (fun c => !(c = '/' || c = '?' || c = '#'))
  | _ => cs

/-- Keep only the part before the first `#`. -/
def url_drop_fragment (cs : List Char) : List Char :=
  match splitOnce cs '#' with
  | some (a, _) => a
  | none => cs

/-- Split at the first `?` into (path-with-params, query). -/
def url_split_query (cs : List Char) : List Char × List Char :=
  match splitOnce cs '?' with
  | some (a, b) => (a, b)
  | none => (cs, [])

/-- Index of the last occurrence of `c` (0 when absent; only used under a
containment guard, matching `str.rfind` usage in `_splitparams`). -/
def lastIdxOf (cs : List Char) (c : Char) : Nat :=
  match cs.reverse.findIdx? (· = c) with
  | some i => cs.length - 1 - i
  | none => 0

/-- First index `≥ start` holding `c`. -/
def idxFrom (cs : List Char) (c : Char) (start : Nat) : Option Nat :=
  ((cs.drop start).findIdx? (· = c)).map (· + start)

/-- CPython `urlparse._splitparams`: when the path contains `;`, parameters
after the `;` in the last segment are split off the path. -/
def url_split_params (cs : List Char) : List Char :=
  if cs.contains ';' then
    if cs.contains '/' then
      match idxFrom cs ';' (lastIdxOf cs '/') with
      | some i => cs.take i
      | none => cs
    else
      match cs.findIdx? (· = ';') with
      | some i => cs.take i
      | none => cs
  else cs

/-- The `path` and `query` components of `urllib.parse.urlparse`. -/
structure UrlPathQuery where
  path : String
  query : String
deriving DecidableEq

/-- `urlparse(link)` restricted to the two components `format_job_card`
uses. -/
def urlparse_path_query (link : String) : UrlPathQuery :=
  let cs := url_sanitize link.data
  let cs := url_drop_scheme cs
  let cs := url_drop_netloc cs
  let cs := url_drop_fragment cs
  let pq := url_split_query cs
  ⟨(url_split_params pq.1).asString, pq.2.asString⟩

/-- Hex digit value for percent decoding. -/
def hexVal (c : Char) : Option Nat :=
  if '0' ≤ c ∧ c ≤ '9' then some (c.toNat - '0'.toNat)
  else if 'a' ≤ c ∧ c ≤ 'f' then some (c.toNat - 'a'.toNat + 10)
  else if 'A' ≤ c ∧ c ≤ 'F' then some (c.toNat - 'A'.toNat + 10)
  else none

/-- Decode `%XX` escapes (bytewise); invalid escapes are kept verbatim. -/
def percentDecode : List Char → List Char
  | [] => []
  | '%' :: a :: b :: rest =>
    match hexVal a, hexVal b with
    | some x, some y => Char.ofNat (16 * x + y) :: percentDecode rest
    | _, _ => '%' :: percentDecode (a :: b :: rest)
  | c :: rest => c :: percentDecode rest

/-- Python `urllib.parse.unquote_plus`: `+` becomes space, then percent
escapes are decoded. -/
def unquote_plus (cs : List Char) : List Char :=
  percentDecode (cs.map (fun c => if c = '+' then ' ' else c))

/-- `urllib.parse.parse_qsl` with default arguments: pairs are separated by
`&`; a pair without `=` or with an empty value is skipped. -/
def parse_qsl (query : String) : List (String × String) :=
  (splitChar '&' query.data).filterMap (fun pair =>
    match splitOnce pair '=' with
    | none => none
    | some (k, v) =>
      if v = [] then none
      else some ((unquote_plus k).asString, (unquote_plus v).asString))

/-- `parse_qs(query)[key][0]` together with the `key in query_params` test:
the first value listed for `key`, if the key occurs at all. -/
def qs_first (query : String) (key : String) : Option String :=
  ((parse_qsl query).find? (fun p => p.1 = key)).map (·.2)

/-! ## Identifier derivation (`format_job_card`, scraper.py lines 36-70) -/

/-- The query parameter names probed by `format_job_card`, in priority
order. -/
def common_id_params : List String :=
  ["jobId", "gh_jid", "reqid", "id", "jobID", "p_jid"]

/-- First common id parameter present in the link's query string. -/
def query_param_id (link : String) : Option String :=
  common_id_params.findSome? (fun p => qs_first (urlparse_path_query link).query p)

/-- A `$` anchor in Python `re` also matches just before a final newline, so
the regex rules first discard one trailing newline. -/
def dropFinalNewline (cs : List Char) : List Char :=
  if cs.getLast? = some '\n' then cs.dropLast else cs

/-- `re.search(r'/(\d\x7b4,\x7d)/?$', path)`: a run of 4 or more digits at
the end of the path (one trailing slash allowed), preceded by `/`.  The
captured group is the maximal trailing digit run. -/
def path_digits_id (path : String) : Option String :=
  let cs0 := dropFinalNewline path.data
  let cs := if cs0.getLast? = some '/' then cs0.dropLast else cs0
  let run := (cs.reverse.takeWhile Char.isDigit).reverse
  let stem := cs.take (cs.length - run.length)
  if 4 ≤ run.length ∧ stem.getLast? = some '/' then some run.asString else none

/-- Character class `[a-zA-Z0-9_-]` of the trailing-run rule. -/
def id_char (c : Char) : Bool := c.isAlphanum || c = '_' || c = '-'

/-- `re.search(r'[=/]([a-zA-Z0-9_-]\x7b6,\x7d)/?$', link)`: a run of 6 or
more id characters at the end of the full link (one trailing slash allowed),
preceded by `=` or `/`. -/
def tail_run_id (link : String) : Option String :=
  let cs0 := dropFinalNewline link.data
  let cs := if cs0.getLast? = some '/' then cs0.dropLast else cs0
  let run := (cs.reverse.takeWhile id_char).reverse
  let stem := cs.take (cs.length - run.length)
  if 6 ≤ run.length ∧ (stem.getLast? = some '=' ∨ stem.getLast? = some '/')
  then some run.asString else none

/-- The raw identifier produced by the fallback chain of `format_job_card`:
the accumulator starts as `"N/A"`, and each later rule only runs while the
accumulator still equals `"N/A"`. -/
def derive_raw_id (link : String) : String :=
  let uid1 := (query_param_id link).getD "N/A"
  let uid2 :=
    if uid1 = "N/A" then
      match path_digits_id (urlparse_path_query link).path with
      | some d => d
      | none => uid1
    else uid1
  if uid2 = "N/A" then
    match tail_run_id link with
    | some v => v
    | none => uid2
  else uid2

/-- `company_name.upper().replace(' ', '')` from `format_job_card`. -/
def sanitize_company_name (company_name : String) : String :=
  ((company_name.data.map Char.toUpper).filter (fun c => c ≠ ' ')).asString

/-- Modelled from the spec: "SANITIZED_COMPANY_NAME strips all
non-alphanumeric characters and upper-cases" (for comparison with the
source's `sanitize_company_name`). -/
def spec_sanitize_company (company_name : String) : String :=
  ((company_name.data.filter Char.isAlphanum).map Char.toUpper).asString

/-- Modelled from the spec's words for the identifier-derivation claim:
ordered fallback with the first matching rule winning, where rule (1) is the
platform-specific example given by the spec (a trailing numeric path segment
for Paylocity detail URLs), followed by query parameters, trailing path
digits, and the trailing id-character run. -/
def derive_raw_id_claim (link : String) : String :=
  if strContains link "recruiting.paylocity.com"
      && (path_digits_id (urlparse_path_query link).path).isSome then
    (path_digits_id (urlparse_path_query link).path).getD "N/A"
  else
    match query_param_id link with
    | some v => v
    | none =>
      match path_digits_id (urlparse_path_query link).path with
      | some d => d
      | none => (tail_run_id link).getD "N/A"

/-! ## Data model -/

/-- A raw scraped job record (the `{title, location, description, link}`
dicts produced by every extractor). -/
structure RawJobRecord where
  title : String
  location : String
  description : String
  link : String
deriving DecidableEq

/-- A scraping target (`company` dict: company_name, careers_url,
keywords). -/
structure Company where
  company_name : String
  careers_url : String
  keywords : List String
deriving DecidableEq

/-- The `details` dict passed to `format_job_card` by
`validate_and_format_jobs`. -/
structure Details where
  job_title : String
  location : String
deriving DecidableEq

/-- The job card dictionary returned by `format_job_card`. -/
structure JobCard where
  company : String
  job_title : String
  location : String
  matched_keywords : List String
  link : String
  unique_job_id : String
deriving DecidableEq

/-! ## Keyword matching and validation (scraper.py lines 29-34, 83-96) -/

/-- `check_job_for_keywords(text_to_check, keywords)`: empty text yields
`(None, [])`; otherwise the keywords whose lower-cased form occurs in the
lower-cased text, with the lowered text as the first component when any
matched. -/
def check_job_for_keywords (text_to_check : String) (keywords : List String) :
    Option String × List String :=
  if text_to_check = "" then (none, [])
  else
    let text_lower := py_lower text_to_check
    let matched := keywords.filter (fun kw => strContains text_lower (py_lower kw))
    (if matched.isEmpty then none else some text_lower, matched)

/-- `format_job_card(details, link, company_name, matched_keywords)`.  The
`details` argument is `none` when the Python value is not a dict. -/
def format_job_card (details : Option Details) (link : String)
    (company_name : String) (matched_keywords : List String) : JobCard :=
  let uid0 := derive_raw_id link
  let uid :=
    if uid0 ≠ "N/A" then sanitize_company_name company_name ++ "-" ++ uid0
    else uid0
  match details with
  | none =>
    ⟨company_name, "Details Extraction Failed", "N/A", matched_keywords, link, uid⟩
  | some d =>
    ⟨company_name, d.job_title, d.location, matched_keywords, link, uid⟩

/-- The f-string `f"{title} {location} {description}"` scanned by
`validate_and_format_jobs`. -/
def full_text_to_check (job_data : RawJobRecord) : String :=
  job_data.title ++ " " ++ job_data.location ++ " " ++ job_data.description

/-- `validate_and_format_jobs(all_job_details, company)`: keep each record
whose concatenated text matched at least one keyword, formatted as a job
card. -/
def validate_and_format_jobs (all_job_details : List RawJobRecord)
    (company : Company) : List JobCard :=
  all_job_details.filterMap (fun job_data =>
    let res := check_job_for_keywords (full_text_to_check job_data) company.keywords
    match res.1 with
    | some _ =>
      some (format_job_card (some ⟨job_data.title, job_data.location⟩)
        job_data.link company.company_name res.2)
    | none => none)

/-! ## Greenhouse extractor (greenhouse_strategy.py)

The board-token script lookup (a BeautifulSoup query plus the
`job_board\?for=([^&]+)` regex on its `src` attribute) is modelled by its
result `script_token`; the `([^&]+)` group is nonempty whenever it matches,
but a `some ""` value is still routed through the falsiness test the code
performs.  The HTTP interaction is modelled by `GreenhouseApiOutcome`, one
constructor per exception class the code catches, and HTML-to-text
conversion of job content (`BeautifulSoup(...).get_text`) by the function
argument `html_text`. -/

/-- One job object of the Greenhouse API response.  `detail_content` models
the secondary per-job request issued when inline content is missing:
`some s` is a 200 response whose JSON `content` defaults to `s`, `none` a
non-200 response (which leaves the content unset). -/
structure GreenhouseJob where
  id : Option Nat
  title : Option String
  location_name : Option String
  absolute_url : Option String
  content : Option String
  detail_content : Option String
deriving DecidableEq

/-- Outcome of the `boards-api.greenhouse.io` query, one constructor per
caught exception class. -/
inductive GreenhouseApiOutcome where
  | httpStatusError
  | networkError
  | jsonDecodeError
  | success (jobs : List GreenhouseJob)
deriving DecidableEq

/-- The job content after the optional secondary fetch: `job.get('content')`,
re-fetched when falsy and an id is present, with `or ''` applied at use. -/
def greenhouse_job_content (job : GreenhouseJob) : String :=
  if job.content.getD "" = "" ∧ job.id.isSome then
    match job.detail_content with
    | some s => s
    | none => ""
  else job.content.getD ""

/-- `re.sub(r'[^a-z0-9]', '', company_name.lower().strip())`: the board
token guessed from the company name. -/
def guess_board_token (company_name : String) : String :=
  ((py_stripL (py_lower company_name).data).filter
    (fun c => ('a' ≤ c ∧ c ≤ 'z') ∨ ('0' ≤ c ∧ c ≤ '9'))).asString

/-- Result of `parse_strategy_greenhouse_api`: the API URL queried (if the
extractor got that far) and the records returned. -/
structure GreenhouseResult where
  queried_url : Option String
  records : List RawJobRecord
deriving DecidableEq

/-- `parse_strategy_greenhouse_api(soup, company)`. -/
def parse_strategy_greenhouse_api (script_token : Option String)
    (company : Company) (api : GreenhouseApiOutcome)
    (html_text : String → String) : GreenhouseResult :=
  let tok0 := script_token.getD ""
  let board_token :=
    if tok0 = "" then guess_board_token company.company_name else tok0
  if board_token = "" then ⟨none, []⟩
  else
    let api_url := "https://boards-api.greenhouse.io/v1/boards/" ++ board_token
      ++ "/jobs?content=true"
    match api with
    | .httpStatusError => ⟨some api_url, []⟩
    | .networkError => ⟨some api_url, []⟩
    | .jsonDecodeError => ⟨some api_url, []⟩
    | .success jobs =>
      ⟨some api_url, jobs.map (fun job =>
        ⟨py_strip (job.title.getD "Title Not Found"),
         py_strip (job.location_name.getD "Location Not Found"),
         html_text (greenhouse_job_content job),
         py_strip (job.absolute_url.getD "#")⟩)⟩

/-! ## Paylocity extractor (paylocity_strategy.py)

`fetch_paylocity_details_async` wraps its whole body in one
`except Exception` returning `None`.  `PaylocityFetchOutcome.failure` models
an exception from the GET / `raise_for_status`; on `success` the three DOM
selector results are page fields (`none` when `select_one` finds nothing, in
which case the subsequent `.get_text` raises `AttributeError`, caught by the
same handler).  `description_text` holds the text of the description element
after the boilerplate `decompose` calls. -/

/-- The selector results of one fetched Paylocity detail page. -/
structure PaylocityPage where
  preview_title_text : Option String
  h1_text : Option String
  preview_location_text : Option String
  description_text : Option String
deriving DecidableEq

/-- Outcome of the per-link `client.get`. -/
inductive PaylocityFetchOutcome where
  | failure
  | success (page : PaylocityPage)
deriving DecidableEq

/-- `fetch_paylocity_details_async(client, link)`. -/
def fetch_paylocity_details_async (link : String) :
    PaylocityFetchOutcome → Option RawJobRecord
  | .failure => none
  | .success page =>
    match page.preview_title_text <|> page.h1_text, page.preview_location_text with
    | some title, some location =>
      some ⟨title, location, page.description_text.getD "", link⟩
    | _, _ => none

/-- `parse_strategy_paylocity(soup, company)` for a given list of job links:
one task per link, gathered in order, `None` results dropped.  The
concurrent scheduling is modelled by giving each link its own independent
fetch outcome. -/
def parse_strategy_paylocity (job_links : List String)
    (fetch : String → PaylocityFetchOutcome) : List RawJobRecord :=
  (job_links.map (fun link => fetch_paylocity_details_async link (fetch link))).filterMap id

/-! ## ADP extractor, API-intercept variant (adp_strategy.py)

`parse_adp_job_pages` visits each link in sequence; the page-structure
selectors are modelled as fields of `AdpPage` and the per-link `driver.get`
failure as `AdpPageOutcome.loadFailure` (caught by the per-link handler,
which skips the link). -/

/-- Selector results of one ADP job-detail page. -/
structure AdpPage where
  title_text : Option String
  location_text : Option String
  description_raw : Option String
deriving DecidableEq

/-- Outcome of loading one ADP job link. -/
inductive AdpPageOutcome where
  | loadFailure
  | loaded (page : AdpPage)
deriving DecidableEq

/-- Case-insensitive character comparison (`re.IGNORECASE`). -/
def ciEq (a b : Char) : Bool := a.toLower = b.toLower

/-- Case-insensitive prefix test. -/
def ciPrefixOf : List Char → List Char → Bool
  | [], _ => true
  | _ :: _, [] => false
  | a :: as, b :: bs => ciEq a b && ciPrefixOf as bs

/-- Index of the first case-insensitive occurrence of `needle`. -/
def ciFindIdx (needle : List Char) : List Char → Option Nat
  | [] => if needle.isEmpty then some 0 else none
  | c :: cs =>
    if ciPrefixOf needle (c :: cs) then some 0
    else (ciFindIdx needle cs).map (· + 1)

/-- Leading literal of the ADP boilerplate regex. -/
def adp_boiler_head : List Char :=
  "Information Technology Strategies, Inc. is a government IT solutions provider".data

/-- Trailing literal of the ADP boilerplate regex. -/
def adp_boiler_tail : List Char := "to work for our company.".data

/-- `re.sub(head + '.*?' + tail, '', s, re.IGNORECASE | re.DOTALL)`: remove
each leftmost occurrence of the head literal followed (non-greedily, across
newlines) by the tail literal, resuming after the removed span.  When no
tail occurrence follows the first head occurrence, none follows any later
head occurrence either, so scanning stops. -/
def remove_adp_boilerplate_go : Nat → List Char → List Char
  | 0, cs => cs
  | fuel + 1, cs =>
    match ciFindIdx adp_boiler_head cs with
    | none => cs
    | some i =>
      let start := i + adp_boiler_head.length
      match ciFindIdx adp_boiler_tail (cs.drop start) with
      | none => cs
      | some k =>
        cs.take i ++ remove_adp_boilerplate_go fuel
          (cs.drop (start + k + adp_boiler_tail.length))

/-- The boilerplate-removal pass of `parse_adp_job_pages`. -/
def remove_adp_boilerplate (s : String) : String :=
  (remove_adp_boilerplate_go s.data.length s.data).asString

/-- The description-cleaning logic of `parse_adp_job_pages`: cut everything
from `"Work With Us"` on (with a strip), then remove the boilerplate
paragraph and strip. -/
def clean_adp_description (description_raw : String) : String :=
  let d1 :=
    match findIdxSub "Work With Us".data description_raw.data with
    | some i => py_strip (description_raw.data.take i).asString
    | none => description_raw
  py_strip (remove_adp_boilerplate d1)

/-- The body of the per-link loop of `parse_adp_job_pages`: sentinel strings
for missing fields, description cleaned, `none` only on page-load failure. -/
def adp_scrape_link (link : String) : AdpPageOutcome → Option RawJobRecord
  | .loadFailure => none
  | .loaded page =>
    some ⟨page.title_text.getD "Title not found",
          page.location_text.getD "Location not found",
          clean_adp_description (page.description_raw.getD "Description not found"),
          link⟩

/-- `parse_adp_job_pages(driver, job_links)`. -/
def parse_adp_job_pages (job_links : List String)
    (outcome : String → AdpPageOutcome) : List RawJobRecord :=
  job_links.filterMap (fun link => adp_scrape_link link (outcome link))

/-! ## ADP extractor, click-through variant
(`parse_strategy_adp_clickthrough`, scraper.py lines 207-290)

Iteration `i` of the loop re-locates the live job list and processes item
`i`; `world i` supplies the length of the re-located list and the outcome of
the item's processing: `excBefore` is an exception anywhere before the
record append (waiting, clicking, scraping a missing selector), `ok` a fully
successful iteration, and `okThenExc` an exception after the append (while
reloading the listing page), which the same handler catches. -/

/-- Outcome of processing one click-through item. -/
inductive AdpIterOutcome where
  | excBefore
  | ok (rec : RawJobRecord)
  | okThenExc (rec : RawJobRecord)
deriving DecidableEq

/-- The click-through loop: `acc` is `all_job_details`; the loop breaks
returning `acc` when the re-located list has at most `i` items, skips the
index on a pre-append exception, and keeps the appended record otherwise. -/
def adp_clickthrough_go (world : Nat → Nat × AdpIterOutcome) :
    Nat → Nat → List RawJobRecord → List RawJobRecord
  | _, 0, acc => acc
  | i, k + 1, acc =>
    let step := world i
    if step.1 ≤ i then acc
    else
      match step.2 with
      | .excBefore => adp_clickthrough_go world (i + 1) k acc
      | .ok r => adp_clickthrough_go world (i + 1) k (acc ++ [r])
      | .okThenExc r => adp_clickthrough_go world (i + 1) k (acc ++ [r])

/-- `parse_strategy_adp_clickthrough(driver, company)` after the initial
item count `num_jobs` has been determined. -/
def parse_strategy_adp_clickthrough (world : Nat → Nat × AdpIterOutcome)
    (num_jobs : Nat) : List RawJobRecord :=
  adp_clickthrough_go world 0 num_jobs []

/-! ## Strategy dispatcher (`process_company`, scraper.py lines 294-342)

The dispatcher's decision depends on the (possibly redirected) current URL
and, in the default branch, on whether the Greenhouse DOM indicator appears
within the bounded `WebDriverWait`; the latter is modelled by the boolean
`greenhouse_found` (`false` is the `TimeoutException` case, which the code
catches). -/

/-- The strategy selected by `process_company`. -/
inductive StrategyKind where
  | paylocity
  | adp
  | greenhouse
  | noStrategy
deriving DecidableEq

/-- The ordered URL/DOM checks of `process_company`. -/
def select_strategy (current_url : String) (greenhouse_found : Bool) :
    StrategyKind :=
  if strContains current_url "recruiting.paylocity.com" then .paylocity
  else if strContains current_url "workforcenow.adp.com" then .adp
  else if greenhouse_found then .greenhouse
  else .noStrategy

/-- `process_company(driver, company)`: run the selected extractor (each
extractor's output is supplied as a parameter), then validate and format.
The timed-out default branch sets `all_job_details = []`. -/
def process_company (current_url : String) (greenhouse_found : Bool)
    (paylocity_records adp_records greenhouse_records : List RawJobRecord)
    (company : Company) : List JobCard :=
  let all_job_details :=
    match select_strategy current_url greenhouse_found with
    | .paylocity => paylocity_records
    | .adp => adp_records
    | .greenhouse => greenhouse_records
    | .noStrategy => []
  validate_and_format_jobs all_job_details company

/-! ## Helper lemmas -/

theorem strContains_empty_needle (hay : String) : strContains hay "" = true := by
  show (findIdxSub ([] : List Char) hay.data).isSome = true
  cases hay.data with
  | nil => rfl
  | cons c cs => simp [findIdxSub, List.isPrefixOf]

theorem full_text_to_check_ne_empty (r : RawJobRecord) :
    full_text_to_check r ≠ "" := by
  intro h
  have hlen : (full_text_to_check r).length = 0 := by rw [h]; rfl
  have hone : (" " : String).length = 1 := rfl
  simp [full_text_to_check, String.length_append, hone] at hlen

theorem check_job_for_keywords_eq (text : String) (kws : List String)
    (h : text ≠ "") :
    check_job_for_keywords text kws =
      (if (kws.filter (fun kw => strContains (py_lower text) (py_lower kw))).isEmpty
         then none else some (py_lower text),
       kws.filter (fun kw => strContains (py_lower text) (py_lower kw))) := by
  simp [check_job_for_keywords, h]

theorem check_fst_isSome_iff (text : String) (kws : List String) (h : text ≠ "") :
    (check_job_for_keywords text kws).1.isSome
      = !(check_job_for_keywords text kws).2.isEmpty := by
  rw [check_job_for_keywords_eq text kws h]
  cases he : (kws.filter (fun kw => strContains (py_lower text) (py_lower kw))).isEmpty <;>
    simp [he]

theorem check_empty_kw_mem (text : String) (kws : List String)
    (ht : text ≠ "") (hk : "" ∈ kws) :
    "" ∈ (check_job_for_keywords text kws).2 := by
  rw [check_job_for_keywords_eq text kws ht]
  have hpl : py_lower "" = "" := rfl
  simp [List.mem_filter, hk, hpl, strContains_empty_needle]

theorem check_isSome_of_mem_empty (text : String) (kws : List String)
    (ht : text ≠ "") (hk : "" ∈ kws) :
    (check_job_for_keywords text kws).1.isSome = true := by
  rw [check_fst_isSome_iff text kws ht]
  have := check_empty_kw_mem text kws ht hk
  simp [List.isEmpty_iff]
  intro hnil
  rw [hnil] at this
  exact absurd this (List.not_mem_nil "")

theorem validate_decomp (recs : List RawJobRecord) (c : Company) :
    validate_and_format_jobs recs c
      = (recs.filter (fun r =>
            !(check_job_for_keywords (full_text_to_check r) c.keywords).2.isEmpty)).map
          (fun r => format_job_card (some ⟨r.title, r.location⟩) r.link
            c.company_name
            (check_job_for_keywords (full_text_to_check r) c.keywords).2) := by
  induction recs with
  | nil => rfl
  | cons r rs ih =>
    have hiff := check_fst_isSome_iff (full_text_to_check r) c.keywords
      (full_text_to_check_ne_empty r)
    cases hm : (check_job_for_keywords (full_text_to_check r) c.keywords).2.isEmpty with
    | true =>
      have hnone : (check_job_for_keywords (full_text_to_check r) c.keywords).1 = none := by
        rw [hm] at hiff
        exact Option.not_isSome_iff_eq_none.mp (by simp [hiff])
      simp only [validate_and_format_jobs, List.filterMap_cons] at ih ⊢
      rw [hnone]
      simpa [List.filter_cons, hm] using ih
    | false =>
      have hsome : (check_job_for_keywords (full_text_to_check r) c.keywords).1.isSome = true := by
        rw [hiff, hm]; rfl
      obtain ⟨x, hx⟩ := Option.isSome_iff_exists.mp hsome
      simp only [validate_and_format_jobs, List.filterMap_cons] at ih ⊢
      rw [hx]
      simpa [List.filter_cons, hm] using ih

theorem validate_length_of_empty_kw (recs : List RawJobRecord) (c : Company)
    (h : "" ∈ c.keywords) :
    (validate_and_format_jobs recs c).length = recs.length := by
  induction recs with
  | nil => rfl
  | cons r rs ih =>
    have hs := check_isSome_of_mem_empty (full_text_to_check r) c.keywords
      (full_text_to_check_ne_empty r) h
    obtain ⟨x, hx⟩ := Option.isSome_iff_exists.mp hs
    simp only [validate_and_format_jobs, List.filterMap_cons] at ih ⊢
    rw [hx]
    simpa using ih

/-! ## Claim C3: keyword matcher contract -/

/-- C3 (corrected to nonempty input text): for nonempty text the matcher
returns exactly the keywords whose lower-cased form occurs in the
lower-cased text, preserving order and casing, and signals a match exactly
when that sublist is nonempty; for empty text it returns no match and no
keywords. -/
theorem check_job_for_keywords_spec (text : String) (kws : List String) :
    (text ≠ "" →
      (check_job_for_keywords text kws).2
          = kws.filter (fun kw => strContains (py_lower text) (py_lower kw))
      ∧ ((check_job_for_keywords text kws).1.isSome = true ↔
          (check_job_for_keywords text kws).2 ≠ []))
    ∧ check_job_for_keywords "" kws = (none, []) := by
  constructor
  · intro h
    refine ⟨by rw [check_job_for_keywords_eq text kws h], ?_⟩
    rw [check_fst_isSome_iff text kws h]
    simp [List.isEmpty_iff]
  · rfl

/-- The spec's own example discharged through the theorem: matching
"Engineer" against "software ENGINEER wanted" is a match that returns
"Engineer" in its original casing. -/
theorem check_job_for_keywords_spec_witness :
    (check_job_for_keywords "software ENGINEER wanted" ["Engineer"]).2
      = ["Engineer"] := by
  have h := (check_job_for_keywords_spec "software ENGINEER wanted" ["Engineer"]).1
    (by decide)
  rw [h.1]; decide

/-- Counterexample to C3 as stated: at empty text with the empty-string
keyword, the empty keyword's lower-cased form is a substring of the
lower-cased text, yet the matcher returns no keywords and no match. -/
theorem check_keywords_empty_text_counterexample :
    strContains (py_lower "") (py_lower "") = true
    ∧ (check_job_for_keywords "" [""]).2 = []
    ∧ (check_job_for_keywords "" [""]).1 = none := by
  exact ⟨by decide, rfl, rfl⟩

/-! ## Claim C4: validator produces a card iff some keyword matches -/

/-- C4: the validator keeps exactly the records whose concatenated
title/location/description text matched at least one keyword, mapping each
to its formatted job card, so a record with zero matched keywords yields no
card and the output is never longer than the input. -/
theorem validate_and_format_jobs_spec (recs : List RawJobRecord) (c : Company) :
    validate_and_format_jobs recs c
      = (recs.filter (fun r =>
            !(check_job_for_keywords (full_text_to_check r) c.keywords).2.isEmpty)).map
          (fun r => format_job_card (some ⟨r.title, r.location⟩) r.link
            c.company_name
            (check_job_for_keywords (full_text_to_check r) c.keywords).2)
    ∧ (validate_and_format_jobs recs c).length ≤ recs.length := by
  refine ⟨validate_decomp recs c, ?_⟩
  rw [validate_decomp recs c]
  simpa using List.length_filter_le _ recs

/-! ## Claim C10: empty keyword always matches nonempty text -/

/-- C10: on nonempty text, a keyword list containing the empty string always
matches (the empty string is among the matched keywords), so with such a
keyword list every record becomes a job card; on empty text the matcher
reports no match and no keywords whatever the list. -/
theorem empty_keyword_matching (text : String) (kws : List String)
    (recs : List RawJobRecord) (c : Company) :
    (text ≠ "" → "" ∈ kws →
       "" ∈ (check_job_for_keywords text kws).2
       ∧ (check_job_for_keywords text kws).1.isSome = true)
    ∧ ("" ∈ c.keywords →
       (validate_and_format_jobs recs c).length = recs.length)
    ∧ check_job_for_keywords "" kws = (none, []) :=
  ⟨fun ht hk => ⟨check_empty_kw_mem text kws ht hk,
     check_isSome_of_mem_empty text kws ht hk⟩,
   fun h => validate_length_of_empty_kw recs c h,
   rfl⟩

/-- Concrete instance of C10: the empty keyword matches the text "anything",
and a one-record batch validated against the keyword list `[""]` yields
exactly one card. -/
theorem empty_keyword_matching_witness :
    "" ∈ (check_job_for_keywords "anything" [""]).2
    ∧ (validate_and_format_jobs [⟨"T", "L", "D", "K"⟩] ⟨"C", "", [""]⟩).length = 1 := by
  refine ⟨((empty_keyword_matching "anything" [""] [] ⟨"", "", []⟩).1
    (by decide) (by decide)).1, ?_⟩
  have h := (empty_keyword_matching "anything" [""] [⟨"T", "L", "D", "K"⟩]
    ⟨"C", "", [""]⟩).2.1 (by decide)
  simpa using h

/-! ## Claim C1: unique job id composition -/

/-- C1 (corrected sanitization): whenever a rule derives an identifier (the
raw id differs from the sentinel), the unique job id is the company name
upper-cased with spaces removed, a hyphen, and the identifier; when no rule
derives one, it is exactly the unprefixed sentinel "N/A". -/
theorem format_job_card_unique_id (details : Option Details) (link : String)
    (company_name : String) (matched_keywords : List String) :
    (derive_raw_id link ≠ "N/A" →
      (format_job_card details link company_name matched_keywords).unique_job_id
        = sanitize_company_name company_name ++ "-" ++ derive_raw_id link)
    ∧ (derive_raw_id link = "N/A" →
      (format_job_card details link company_name matched_keywords).unique_job_id
        = "N/A") := by
  constructor <;> intro h <;> cases details <;> simp [format_job_card, h]

/-- Instance of the spec's `?jobId=123` example through the theorem: the
card for company "Acme Corp" gets unique id "ACMECORP-123". -/
theorem format_job_card_unique_id_witness :
    (format_job_card none "?jobId=123" "Acme Corp" []).unique_job_id
      = "ACMECORP-123" := by
  have h := (format_job_card_unique_id none "?jobId=123" "Acme Corp" []).1 (by decide)
  rw [h]; decide

/-- Counterexample to C1 as stated: for company name "B&A" (a non-space,
non-alphanumeric character) and a link carrying `?jobId=123`, the code
produces "B&A-123", not the fully stripped "BA-123" the claim's
sanitization prescribes. -/
theorem format_job_card_sanitize_counterexample :
    (format_job_card none "https://x.com/?jobId=123" "B&A" []).unique_job_id
      = "B&A-123"
    ∧ spec_sanitize_company "B&A" ++ "-" ++ "123" = "BA-123"
    ∧ (format_job_card none "https://x.com/?jobId=123" "B&A" []).unique_job_id
      ≠ spec_sanitize_company "B&A" ++ "-" ++ "123" := by
  refine ⟨by decide, by decide, by decide⟩

/-! ## Claim C2: identifier derivation rule order -/

theorem length_asString (l : List Char) : (l.asString).length = l.length := rfl

theorem path_digits_id_four_le (p d : String) (h : path_digits_id p = some d) :
    4 ≤ d.length := by
  simp only [path_digits_id] at h
  split at h
  · split at h
    · next hc =>
      injection h with h
      subst h
      simpa [length_asString] using hc.1
    · exact absurd h (by simp)
  · split at h
    · next hc =>
      injection h with h
      subst h
      simpa [length_asString] using hc.1
    · exact absurd h (by simp)

theorem path_digits_id_ne_NA (p d : String) (h : path_digits_id p = some d) :
    d ≠ "N/A" := by
  intro he
  have h4 := path_digits_id_four_le p d h
  rw [he] at h4
  have h3 : ("N/A" : String).length = 3 := rfl
  omega

/-- C2 (corrected): there is no separate platform-specific first rule, and a
rule whose extracted value is exactly the sentinel "N/A" falls through to
the later rules; with those changes, derivation applies, first accepted
match winning: query parameters in priority order, then a trailing 4+-digit
path run, then a trailing 6+ id-character run after `=` or `/`, else the
sentinel. -/
theorem derive_raw_id_rule_order (link : String) :
    (∀ v, query_param_id link = some v → v ≠ "N/A" → derive_raw_id link = v)
    ∧ ((query_param_id link = none ∨ query_param_id link = some "N/A") →
       ∀ d, path_digits_id (urlparse_path_query link).path = some d →
       derive_raw_id link = d)
    ∧ ((query_param_id link = none ∨ query_param_id link = some "N/A") →
       path_digits_id (urlparse_path_query link).path = none →
       ∀ v, tail_run_id link = some v → derive_raw_id link = v)
    ∧ ((query_param_id link = none ∨ query_param_id link = some "N/A") →
       path_digits_id (urlparse_path_query link).path = none →
       tail_run_id link = none → derive_raw_id link = "N/A") := by
  refine ⟨?_, ?_, ?_, ?_⟩
  · intro v hv hne
    simp [derive_raw_id, hv, hne]
  · intro hq d hd
    have hdne := path_digits_id_ne_NA _ d hd
    rcases hq with hq | hq <;> simp [derive_raw_id, hq, hd, hdne]
  · intro hq hp v ht
    rcases hq with hq | hq <;> simp [derive_raw_id, hq, hp, ht]
  · intro hq hp ht
    rcases hq with hq | hq <;> simp [derive_raw_id, hq, hp, ht]

/-- Rule 2 in isolation through the theorem: a link whose path ends in a
4+-digit segment and whose query holds no known parameter derives that
segment. -/
theorem derive_raw_id_rule_order_witness :
    derive_raw_id "https://a.b/jobs/9876" = "9876" :=
  (derive_raw_id_rule_order "https://a.b/jobs/9876").2.1 (Or.inl (by decide))
    "9876" (by decide)

/-- Counterexample to C2 as stated: on a link whose `jobId` parameter value
is exactly "N/A", the first matching rule (the query-parameter rule) does
not win; the code falls through to the path rule and derives "12345". -/
theorem derive_id_first_match_counterexample :
    derive_raw_id "https://example.com/jobs/12345?jobId=N/A" = "12345"
    ∧ derive_raw_id_claim "https://example.com/jobs/12345?jobId=N/A" = "N/A"
    ∧ derive_raw_id "https://example.com/jobs/12345?jobId=N/A"
        ≠ derive_raw_id_claim "https://example.com/jobs/12345?jobId=N/A" := by
  refine ⟨by decide, by decide, by decide⟩

/-! ## Claim C5: dispatcher strategy selection -/

/-- C5: the dispatcher selects by ordered first-match-wins checks — a
Paylocity URL wins over everything, then an ADP URL, then a detected
Greenhouse DOM indicator; when the indicator wait times out it selects no
strategy and the company yields an empty list without error. -/
theorem dispatcher_strategy_order (url : String) (gh : Bool)
    (p a g : List RawJobRecord) (c : Company) :
    (strContains url "recruiting.paylocity.com" = true →
       select_strategy url gh = .paylocity)
    ∧ (strContains url "recruiting.paylocity.com" = false →
       strContains url "workforcenow.adp.com" = true →
       select_strategy url gh = .adp)
    ∧ (strContains url "recruiting.paylocity.com" = false →
       strContains url "workforcenow.adp.com" = false →
       gh = true → select_strategy url gh = .greenhouse)
    ∧ (strContains url "recruiting.paylocity.com" = false →
       strContains url "workforcenow.adp.com" = false → gh = false →
       select_strategy url gh = .noStrategy
       ∧ process_company url gh p a g c = []) := by
  refine ⟨?_, ?_, ?_, ?_⟩
  · intro h1
    simp [select_strategy, h1]
  · intro h1 h2
    simp [select_strategy, h1, h2]
  · intro h1 h2 h3
    simp [select_strategy, h1, h2, h3]
  · intro h1 h2 h3
    refine ⟨by simp [select_strategy, h1, h2, h3], ?_⟩
    simp [process_company, select_strategy, h1, h2, h3, validate_and_format_jobs]

/-- A Paylocity URL routed through the theorem's first check. -/
theorem dispatcher_strategy_order_witness :
    select_strategy "https://recruiting.paylocity.com/recruiting/jobs/All" false
      = .paylocity :=
  (dispatcher_strategy_order "https://recruiting.paylocity.com/recruiting/jobs/All"
    false [] [] [] ⟨"X", "", []⟩).1 (by decide)

/-! ## Claim C6: greenhouse token synthesis and error containment -/

/-- C6: with no board-token script the extractor synthesizes the token by
lower-casing the company name and stripping non-alphanumerics — returning an
empty result without querying when synthesis is empty, and otherwise
querying the API URL built from the synthesized token — and every caught API
failure (HTTP status, network, JSON decode) yields an empty record list
instead of escaping. -/
theorem greenhouse_token_and_error_handling (script_token : Option String)
    (c : Company) (html_text : String → String) (jobs : List GreenhouseJob) :
    ((script_token = none ∨ script_token = some "") →
       guess_board_token c.company_name = "" →
       ∀ api, parse_strategy_greenhouse_api script_token c api html_text
         = ⟨none, []⟩)
    ∧ ((script_token = none ∨ script_token = some "") →
       guess_board_token c.company_name ≠ "" →
       (parse_strategy_greenhouse_api script_token c (.success jobs)
           html_text).queried_url
         = some ("https://boards-api.greenhouse.io/v1/boards/"
             ++ guess_board_token c.company_name ++ "/jobs?content=true"))
    ∧ (∀ api, api = GreenhouseApiOutcome.httpStatusError
         ∨ api = GreenhouseApiOutcome.networkError
         ∨ api = GreenhouseApiOutcome.jsonDecodeError →
       (parse_strategy_greenhouse_api script_token c api html_text).records
         = []) := by
  refine ⟨?_, ?_, ?_⟩
  · intro hst hg api
    rcases hst with hst | hst <;> simp [parse_strategy_greenhouse_api, hst, hg]
  · intro hst hg
    rcases hst with hst | hst <;> simp [parse_strategy_greenhouse_api, hst, hg]
  · intro api hapi
    rcases hapi with h | h | h <;> subst h <;>
      simp only [parse_strategy_greenhouse_api] <;> split <;>
        first
        | rfl
        | (split <;> rfl)

/-- Token synthesis through the theorem: with no script tag, the company
name "Dev Technology " yields the API URL for board token
"devtechnology". -/
theorem greenhouse_token_and_error_handling_witness :
    (parse_strategy_greenhouse_api none ⟨"Dev Technology ", "", []⟩
        (.success []) id).queried_url
      = some "https://boards-api.greenhouse.io/v1/boards/devtechnology/jobs?content=true" := by
  have h := (greenhouse_token_and_error_handling none ⟨"Dev Technology ", "", []⟩
    id []).2.1 (Or.inl rfl) (by decide)
  rw [h]; decide

/-! ## Claim C7: paylocity per-link failure isolation -/

/-- C7: each Paylocity detail link contributes independently — the batch
result is the per-link results in order with failures dropped, so a fetch
failure on one of three links still yields the records of the other two. -/
theorem paylocity_failure_isolation (l1 l2 l3 : String)
    (fetch : String → PaylocityFetchOutcome) (r1 r3 : RawJobRecord)
    (h1 : fetch_paylocity_details_async l1 (fetch l1) = some r1)
    (h2 : fetch l2 = .failure)
    (h3 : fetch_paylocity_details_async l3 (fetch l3) = some r3) :
    parse_strategy_paylocity [l1, l2, l3] fetch = [r1, r3]
    ∧ ∀ links : List String,
        parse_strategy_paylocity links fetch
          = links.filterMap (fun l => fetch_paylocity_details_async l (fetch l)) := by
  have e2 : fetch_paylocity_details_async l2 (fetch l2) = none := by
    simp [h2, fetch_paylocity_details_async]
  refine ⟨?_, ?_⟩
  · simp [parse_strategy_paylocity, h1, e2, h3]
  · intro links
    simp [parse_strategy_paylocity, List.filterMap_map]

/-- The spec's three-link scenario through the theorem: a failure on the
middle link still yields the two records of the outer links. -/
theorem paylocity_failure_isolation_witness :
    parse_strategy_paylocity ["A", "B", "C"]
        (fun l => if l = "B" then .failure
          else .success ⟨some "Senior Python Developer", none,
            some "Reston, VA", some "desc"⟩)
      = [⟨"Senior Python Developer", "Reston, VA", "desc", "A"⟩,
         ⟨"Senior Python Developer", "Reston, VA", "desc", "C"⟩] :=
  (paylocity_failure_isolation "A" "B" "C"
    (fun l => if l = "B" then .failure
      else .success ⟨some "Senior Python Developer", none,
        some "Reston, VA", some "desc"⟩)
    ⟨"Senior Python Developer", "Reston, VA", "desc", "A"⟩
    ⟨"Senior Python Developer", "Reston, VA", "desc", "C"⟩
    (by decide) (by decide) (by decide)).1

/-! ## Claim C8: field-level extraction failures -/

/-- C8 (corrected): the ADP per-link extractor substitutes sentinel strings
for any missing field and still produces the record, dropping it only on a
page-load failure; the Paylocity fetcher, however, recovers only a missing
description element (as the empty string) — a missing location, or a title
missing under both selectors, drops the whole record. -/
theorem field_failure_sentinels (link : String) (apg : AdpPage)
    (ppg : PaylocityPage) :
    (adp_scrape_link link (.loaded apg)
       = some ⟨apg.title_text.getD "Title not found",
               apg.location_text.getD "Location not found",
               clean_adp_description (apg.description_raw.getD "Description not found"),
               link⟩)
    ∧ adp_scrape_link link .loadFailure = none
    ∧ (ppg.preview_location_text = none →
       fetch_paylocity_details_async link (.success ppg) = none)
    ∧ (ppg.preview_title_text = none → ppg.h1_text = none →
       fetch_paylocity_details_async link (.success ppg) = none)
    ∧ (∀ t l, ppg.preview_title_text = some t →
       ppg.preview_location_text = some l →
       fetch_paylocity_details_async link (.success ppg)
         = some ⟨t, l, ppg.description_text.getD "", link⟩) := by
  refine ⟨rfl, rfl, ?_, ?_, ?_⟩
  · intro hloc
    simp [fetch_paylocity_details_async, hloc]
  · intro ht hh
    simp [fetch_paylocity_details_async, ht, hh]
  · intro t l ht hl
    simp [fetch_paylocity_details_async, ht, hl]

/-- A Paylocity page whose location selector finds nothing is dropped, shown
through the theorem. -/
theorem field_failure_sentinels_witness :
    fetch_paylocity_details_async "PL"
        (.success ⟨some "Engineer II", none, none, some "body"⟩) = none :=
  (field_failure_sentinels "PL" ⟨none, none, none⟩
    ⟨some "Engineer II", none, none, some "body"⟩).2.2.1 rfl

/-- Counterexample to C8 as stated: a successfully fetched Paylocity detail
page with a title but no location element yields no record at all — the
record is dropped rather than produced with a sentinel location. -/
theorem paylocity_missing_field_counterexample :
    fetch_paylocity_details_async "https://x/Jobs/Details/1234"
        (.success ⟨some "Engineer", none, none, some "desc"⟩) = none
    ∧ adp_scrape_link "https://x/adp"
        (.loaded ⟨some "Engineer", none, some "desc"⟩)
      = some ⟨"Engineer", "Location not found", "desc", "https://x/adp"⟩ := by
  exact ⟨rfl, by decide⟩

/-! ## Claim C9: ADP click-through loop resilience -/

/-- C9 (corrected): an exception before the record append skips the index
and the loop continues; an exception after the append (while restoring the
listing) also lets the loop continue but keeps the appended record; and
whenever the re-located list has at most `i` items the loop stops early,
returning exactly the records collected so far. -/
theorem adp_clickthrough_loop_spec (world : Nat → Nat × AdpIterOutcome)
    (i k : Nat) (acc : List RawJobRecord) :
    (∀ len, world i = (len, .excBefore) → i < len →
       adp_clickthrough_go world i (k + 1) acc
         = adp_clickthrough_go world (i + 1) k acc)
    ∧ (∀ len r, world i = (len, .ok r) → i < len →
       adp_clickthrough_go world i (k + 1) acc
         = adp_clickthrough_go world (i + 1) k (acc ++ [r]))
    ∧ (∀ len r, world i = (len, .okThenExc r) → i < len →
       adp_clickthrough_go world i (k + 1) acc
         = adp_clickthrough_go world (i + 1) k (acc ++ [r]))
    ∧ (∀ len out, world i = (len, out) → len ≤ i →
       adp_clickthrough_go world i (k + 1) acc = acc) := by
  refine ⟨?_, ?_, ?_, ?_⟩
  · intro len hw hlt
    simp [adp_clickthrough_go, hw, Nat.not_le.mpr hlt]
  · intro len r hw hlt
    simp [adp_clickthrough_go, hw, Nat.not_le.mpr hlt]
  · intro len r hw hlt
    simp [adp_clickthrough_go, hw, Nat.not_le.mpr hlt]
  · intro len out hw hle
    simp [adp_clickthrough_go, hw, hle]

/-- Early stop through the theorem: with an empty re-located list, the first
iteration immediately returns the records collected so far (none). -/
theorem adp_clickthrough_loop_spec_witness :
    adp_clickthrough_go (fun _ => (0, AdpIterOutcome.excBefore)) 0 1 [] = [] :=
  (adp_clickthrough_loop_spec (fun _ => (0, AdpIterOutcome.excBefore)) 0 0 []).2.2.2
    0 AdpIterOutcome.excBefore rfl (Nat.le_refl 0)

/-- Concrete records for the click-through counterexample. -/
def adpJobA : RawJobRecord :=
  ⟨"Systems Engineer", "Washington, DC", "desc one",
   "https://workforcenow.adp.com/x?jobId=1"⟩

/-- Second concrete record for the click-through counterexample. -/
def adpJobB : RawJobRecord :=
  ⟨"QA Analyst", "Arlington, VA", "desc two",
   "https://workforcenow.adp.com/x?jobId=2"⟩

/-- Counterexample to C9 as stated: item 0 is processed, its record is
appended, and an exception is then raised while reloading the listing page;
the exception is caught and the loop continues, but index 0 is not skipped —
its record survives in the result. -/
theorem adp_item_exception_counterexample :
    parse_strategy_adp_clickthrough
        (fun i => (2, if i = 0 then .okThenExc adpJobA else .ok adpJobB)) 2
      = [adpJobA, adpJobB]
    ∧ adpJobA ∈ parse_strategy_adp_clickthrough
        (fun i => (2, if i = 0 then .okThenExc adpJobA else .ok adpJobB)) 2 := by
  refine ⟨by decide, by decide⟩
